import Mathlib

/-!
Shallow embedding of the teaser-deck pipeline (main.py, utils/agent.py,
utils/ingestor.py, utils/web_search.py, utils/generator.py).

External collaborators (the language model, the JSON library, the HTTP search
providers, the filesystem) are modelled as explicit parameters or stubs;
everything else is translated directly from the Python source.
-/

/-! ### Python string primitives

Python's `str` operations used by the source, modelled on `List Char` with
structural recursion so that everything kernel-evaluates.
-/

/-- Python `str.lower` (ASCII case folding, which covers every string the
source compares). -/
def pyLower (s : String) : String :=
  ⟨s.toList.map Char.toLower⟩

/-- Whitespace characters stripped by Python `str.strip()`. -/
def isPyWhitespace (c : Char) : Bool :=
  c = ' ' || c = '\t' || c = '\n' || c = '\r' || c = '\x0b' || c = '\x0c'

/-- Python `str.strip()` with no arguments. -/
def pyStrip (s : String) : String :=
  ⟨((s.toList.dropWhile isPyWhitespace).reverse.dropWhile isPyWhitespace).reverse⟩

/-- Left-to-right non-overlapping replacement, the semantics of Python
`str.replace`.  Fuel is the length of the subject string; each step consumes
at least one character, so the fuel suffices. -/
def pyReplaceAux (old new : List Char) : Nat → List Char → List Char
  | 0, s => s
  | Nat.succ fuel, s =>
    match s with
    | [] => []
    | c :: rest =>
      if !old.isEmpty && old.isPrefixOf s then
        new ++ pyReplaceAux old new fuel (s.drop old.length)
      else
        c :: pyReplaceAux old new fuel rest

/-- Python `s.replace(old, new)`. -/
def pyReplace (s old new : String) : String :=
  ⟨pyReplaceAux old.toList new.toList s.toList.length s.toList⟩

/-- Containment of `needle` in `hay` as a contiguous run, the semantics of
Python's `in` operator on strings. -/
def listInfix (needle : List Char) : List Char → Bool
  | [] => needle.isEmpty
  | c :: rest => needle.isPrefixOf (c :: rest) || listInfix needle rest

/-- Python `needle in hay` for strings. -/
def strContains (hay needle : String) : Bool :=
  listInfix needle.toList hay.toList

/-- Python `s.endswith(suffix)`. -/
def pyEndsWith (s suffix : String) : Bool :=
  suffix.toList.isSuffixOf s.toList

/-- Python `s.startswith('.')`, used to skip dotfiles. -/
def startsWithDot (s : String) : Bool :=
  match s.toList with
  | [] => false
  | c :: _ => c = '.'

/-- Python slice `s[:n]`. -/
def pyTake (s : String) (n : Nat) : String :=
  ⟨s.toList.take n⟩

/-! ### JSON values

Model of the untyped values produced by Python's `json.loads`.  Numbers are
modelled as integers; no claim depends on numeric JSON payloads. -/

/-- A parsed JSON value, as handed around untyped by the Python source. -/
inductive Json where
  | null : Json
  | bool (b : Bool) : Json
  | num (n : Int) : Json
  | str (s : String) : Json
  | arr (xs : List Json) : Json
  | obj (kvs : List (String × Json)) : Json

/-- Key lookup on a JSON object, Python `dict` access / `dict.get`. -/
def Json.getKey (j : Json) (k : String) : Option Json :=
  match j with
  | .obj kvs => List.lookup k kvs
  | _ => none

/-- Python truthiness of a JSON value (`not x` in the orchestrator's guards). -/
def jsonTruthy : Json → Bool
  | .null => false
  | .bool b => b
  | .num n => n != 0
  | .str s => !s.toList.isEmpty
  | .arr xs => !xs.isEmpty
  | .obj kvs => !kvs.isEmpty

/-! ### utils/agent.py -/

/-- Embeds `clean_json_string` (utils/agent.py lines 10-16; an identical copy
lives in utils/web_search.py lines 28-32): strip Markdown code fences, then
strip surrounding whitespace. -/
def clean_json_string (json_string : String) : String :=
  let json_string :=
    if strContains json_string "```" then
      pyReplace (pyReplace json_string "```json" "") "```" ""
    else json_string
  pyStrip json_string

/-- Outcome of one language-model invocation: the reply text, or a raised
exception.  This is the boundary at which the external model is stubbed. -/
inductive CallResult where
  | ok (content : String) : CallResult
  | raised : CallResult
deriving DecidableEq

/-- The placeholder record returned by `analyze_data` when the model reply is
not valid JSON (utils/agent.py lines 107-121), with the source's exact
key/value pairs. -/
def errorPlaceholder : Json :=
  .obj
    [ ("company_name", .str "Unknown")
    , ("company_codename", .str "Project Error")
    , ("sector", .str "Error")
    , ("business_overview", .arr [.str "AI could not process data."])
    , ("product_portfolio", .arr [])
    , ("applications", .arr [])
    , ("financials", .obj [])
    , ("assumptions", .str "N/A")
    , ("metrics_point", .str "N/A")
    , ("upcoming_facility", .str "N/A")
    , ("sales", .str "N/A")
    , ("global_presence", .str "N/A")
    , ("investment_highlights", .arr [])
    ]

/-- Embeds `analyze_data` (utils/agent.py lines 18-124).  `parse` stands for
Python's `json.loads` (`none` = `json.JSONDecodeError`); `call` is the model
invocation.  A raised invocation hits `except Exception` and returns `None`;
a parse failure hits `except json.JSONDecodeError` and returns the
placeholder; a reply that parses to a non-object makes the subsequent
`data.get` raise `AttributeError`, which the generic handler turns into
`None`. -/
def analyze_data (parse : String → Option Json) (call : CallResult) : Option Json :=
  match call with
  | .raised => none
  | .ok content =>
    match parse (clean_json_string content) with
    | none => some errorPlaceholder
    | some data =>
      match data with
      | .obj kvs => some (.obj kvs)
      | _ => none

/-! ### utils/ingestor.py -/

/-- The data an external read capability yields for one directory entry:
plain text for `.txt`/`.md`, per-page nullable text for `.pdf` (pdfplumber),
per-sheet rendered tables for `.xlsx`/`.xls` (pandas), or a raised read
exception (caught per file by the source, contribution omitted). -/
inductive FileData where
  | textData (content : String) : FileData
  | pdfData (pages : List (Option String)) : FileData
  | sheetData (sheets : List (String × String)) : FileData
  | readRaises : FileData

/-- One directory entry: its filename and what reading it yields. -/
structure FileEntry where
  name : String
  data : FileData

/-- Page concatenation for PDFs (utils/ingestor.py lines 40-44): pages whose
extraction yields no text are skipped, the rest are joined with newlines. -/
def pdfText (pages : List (Option String)) : String :=
  pages.foldl (fun acc p => match p with | some t => acc ++ t ++ "\n" | none => acc) ""

/-- The contribution of one directory entry to the combined corpus
(utils/ingestor.py lines 21-58): dotfiles are skipped; dispatch is on the
lower-cased filename's extension; a read exception (or a capability mismatch)
contributes nothing; unknown extensions are ignored. -/
def fileSection (file : FileEntry) : String :=
  if startsWithDot file.name then "" else
  let lower := pyLower file.name
  if pyEndsWith lower ".txt" || pyEndsWith lower ".md" then
    match file.data with
    | .textData content => "\n\n--- FILE: " ++ file.name ++ " ---\n" ++ content
    | _ => ""
  else if pyEndsWith lower ".pdf" then
    match file.data with
    | .pdfData pages => "\n\n--- FILE: " ++ file.name ++ " (PDF Content) ---\n" ++ pdfText pages
    | _ => ""
  else if pyEndsWith lower ".xlsx" || pyEndsWith lower ".xls" then
    match file.data with
    | .sheetData sheets =>
        sheets.foldl
          (fun acc st =>
            acc ++ "\n\n--- FILE: " ++ file.name ++ " | SHEET: " ++ st.1 ++ " ---\n" ++ st.2)
          ""
    | _ => ""
  else ""

/-- Embeds `ingest_company_data` (utils/ingestor.py lines 5-60).  `fs` is the
filesystem at `folder_path`: `none` when `os.path.exists` is false, otherwise
the `os.listdir` listing in order. -/
def ingest_company_data (fs : Option (List FileEntry)) (folder_path : String) : String :=
  match fs with
  | none => "Error: Folder not found at " ++ folder_path
  | some files =>
    if files.isEmpty then "Warning: No files found in this folder."
    else files.foldl (fun acc f => acc ++ fileSection f) ""

/-! ### main.py (pipeline orchestrator) -/

/-- The all-empty web-data substituted by the orchestrator when web
enrichment raises (main.py lines 66-71). -/
def emptyWebData : Json :=
  .obj
    [ ("images", .arr [])
    , ("certifications", .arr [])
    , ("business_info", .obj [])
    , ("citations", .arr [])
    ]

/-- How one pipeline run ends (main.py `run_pipeline` early returns and final
success print). -/
inductive PipelineOutcome where
  | abortedNoText : PipelineOutcome
  | abortedAgentFailed : PipelineOutcome
  | abortedGeneratorError : PipelineOutcome
  | completed : PipelineOutcome
deriving DecidableEq

/-- Observable trace of one `run_pipeline` call: which stages ran, the
`web_data` attached to the structured record (if that point was reached), and
the outcome. -/
structure PipelineTrace where
  extractorCalled : Bool
  webCalled : Bool
  generatorCalled : Bool
  webDataUsed : Option Json
  outcome : PipelineOutcome

/-- POSIX `os.path.join` for the relative components the source joins. -/
def osJoin (a b : String) : String :=
  if a.toList.isEmpty then b
  else if pyEndsWith a "/" then a ++ b
  else a ++ "/" ++ b

/-- Embeds `run_pipeline` (main.py lines 14-84).  The external stages are
stubs: `fs` feeds ingestion, `agent` is the value `analyze_data` returns,
`web` is `get_web_data_for_company` (an `Except` capturing a raised
exception), `gen` is `create_presentation`.  The guards are the source's:
`if not raw_text or len(raw_text) < 50` and `if not structured_data`
(Python truthiness). -/
def run_pipeline (base_dir company_folder_name : String) (fs : Option (List FileEntry))
    (agent : Option Json) (web : Except Unit Json) (gen : Except Unit Unit) : PipelineTrace :=
  let input_dir := osJoin (osJoin (osJoin base_dir "data") "input") company_folder_name
  let raw_text := ingest_company_data fs input_dir
  if raw_text.toList.isEmpty || raw_text.length < 50 then
    ⟨false, false, false, none, .abortedNoText⟩
  else
    match agent with
    | none => ⟨true, false, false, none, .abortedAgentFailed⟩
    | some structured_data =>
      if !jsonTruthy structured_data then ⟨true, false, false, none, .abortedAgentFailed⟩
      else
        let web_data := match web with | .ok w => w | .error _ => emptyWebData
        match gen with
        | .error _ => ⟨true, true, true, some web_data, .abortedGeneratorError⟩
        | .ok _ => ⟨true, true, true, some web_data, .completed⟩

/-! ### utils/web_search.py -/

/-- Embeds `generate_fallback_queries` (utils/web_search.py lines 105-113):
the hard-coded per-category query lists, with `["general search"]` as the
`dict.get` default. -/
def generate_fallback_queries (search_type : String) : List String :=
  if search_type = "images" then
    ["generic manufacturing products stock photo", "industrial facility interior"]
  else if search_type = "certifications" then
    ["ISO 9001 certification", "industry certifications"]
  else if search_type = "business_info" then
    ["industry market trends", "sector growth analysis"]
  else if search_type = "partners" then
    ["business partnerships", "industry collaborations"]
  else
    ["general search"]

/-- Embeds `generate_search_queries` (utils/web_search.py lines 34-103).
`parse` is `json.loads`, `llm` the model invocation (the prompt construction,
including the 2000-character truncation of `company_data`, only shapes the
stubbed reply).  The reply must parse to a non-empty JSON list; the first 5
elements are returned.  Every failure branch (raised call, parse error,
non-list, empty list) falls back.  Elements are untyped JSON values, exactly
as in Python; the fallback strings are injected as JSON strings. -/
def generate_search_queries (parse : String → Option Json) (llm : CallResult)
    (company_name company_data search_type : String) : List Json :=
  match llm with
  | .raised => (generate_fallback_queries search_type).map Json.str
  | .ok content =>
    match parse (clean_json_string content) with
    | none => (generate_fallback_queries search_type).map Json.str
    | some queries =>
      match queries with
      | .arr xs =>
        if xs.length > 0 then xs.take 5
        else (generate_fallback_queries search_type).map Json.str
      | _ => (generate_fallback_queries search_type).map Json.str

/-- The fixed certification catalog (utils/web_search.py lines 277-282). -/
def common_certs : List String :=
  [ "ISO 9001", "ISO 14001", "ISO 22000", "ISO 13485", "ISO 45001"
  , "GMP", "WHO-GMP", "USFDA", "CE Mark", "FSSAI", "BIS", "BRC"
  , "FSSC 22000", "HACCP", "OHSAS 18001", "IATF 16949", "TS 16949"
  , "USDA Organic", "Non-GMO", "RoHS", "FCC", "AEO", "GDP", "C-TPAT"
  ]

/-- A certification entry as built by `search_certifications`. -/
structure Cert where
  name : String
  description : String
  verified : Bool
  source : String
deriving DecidableEq

/-- A citation entry as built by `search_certifications`. -/
structure CertCitation where
  kind : String
  name : String
  source : String
  description : String
deriving DecidableEq

/-- One text-search result as returned by `search_text_tavily`
(utils/web_search.py lines 149-157). -/
structure TavilyResult where
  title : String
  body : String
  href : String

/-- One step of the web-fallback scan (utils/web_search.py lines 315-333):
for one result, the first catalog entry found in the lower-cased body that is
not already in `found_certs` (the inner `for`/`break`). -/
def scanResultCert (found : List String) (body : String) : Option String :=
  common_certs.find? (fun cert =>
    strContains (pyLower body) (pyLower cert) && !(found.contains cert))

/-- The web-fallback loop over text-search results, threading `found_certs`
and appending unverified entries sourced from the result's URL. -/
def webCertFold (results : List TavilyResult) (found0 : List String) :
    List String × List Cert × List CertCitation :=
  results.foldl
    (fun acc result =>
      match scanResultCert acc.1 result.body with
      | none => acc
      | some cert =>
        ( acc.1 ++ [cert]
        , acc.2.1 ++ [⟨cert, pyTake result.body 200, false, result.href⟩]
        , acc.2.2 ++ [⟨"certification", cert, result.href,
            "Information about " ++ cert ++ " certification"⟩] ))
    (found0, [], [])

/-- Embeds `search_certifications` (utils/web_search.py lines 259-339).
`tavily` stubs `search_text_tavily`.  Returns the certification list, the
citation list, and the list of queries actually passed to the text-search
provider (so call counts are observable).  The local scan records every
catalog entry whose lower-cased name occurs in the lower-cased raw data as a
verified entry sourced from `company_data`; the web fallback runs only when
the local scan found nothing, and then issues exactly one text search with
the first generated query. -/
def search_certifications (parse : String → Option Json) (llm : CallResult)
    (tavily : Json → List TavilyResult) (company_name company_data : String) :
    List Cert × List CertCitation × List Json :=
  let found0 := common_certs.filter (fun cert =>
    strContains (pyLower company_data) (pyLower cert))
  let localCerts : List Cert := found0.map (fun cert =>
    ⟨cert, cert ++ " certification standard", true, "company_data"⟩)
  let localCits : List CertCitation := found0.map (fun cert =>
    ⟨"certification", cert, "company_data",
      "Certification mentioned in provided company data"⟩)
  if found0.length = 0 then
    let queries := generate_search_queries parse llm company_name company_data "certifications"
    match queries with
    | [] => (localCerts, localCits, [])
    | q :: _ =>
      let results := tavily q
      let webpart := webCertFold results found0
      (localCerts ++ webpart.2.1, localCits ++ webpart.2.2, [q])
  else
    (localCerts, localCits, [])

/-! ### utils/generator.py -/

/-- POSIX `os.path.basename`: everything after the last slash. -/
def pyBasename (s : String) : String :=
  ⟨(s.toList.reverse.takeWhile (fun c => c ≠ '/')).reverse⟩

/-- POSIX `os.path.dirname`: everything before the last slash, with trailing
slashes stripped unless the head is all slashes. -/
def pyDirname (s : String) : String :=
  let revDir := s.toList.reverse.dropWhile (fun c => c ≠ '/')
  let stripped := revDir.dropWhile (fun c => c = '/')
  if stripped.isEmpty then ⟨revDir.reverse⟩ else ⟨stripped.reverse⟩

/-- POSIX `os.path.splitext` applied to a basename (no slashes): the
extension starts at the last dot, provided some non-dot character precedes it
(leading dots never start an extension).  Returns (root, ext). -/
def pySplitext (base : String) : String × String :=
  let cs := base.toList
  let leading := cs.takeWhile (fun c => c = '.')
  let rest := cs.drop leading.length
  let revRest := rest.reverse
  let extRev := revRest.takeWhile (fun c => c ≠ '.')
  if extRev.length = rest.length then (base, "")
  else
    ( ⟨leading ++ rest.take (rest.length - extRev.length - 1)⟩
    , ⟨'.' :: extRev.reverse⟩ )

/-- The collision loop of `get_unique_output_path` (utils/generator.py lines
87-96): try `name_1`, `name_2`, …; the source raises `ValueError` once the
counter passes 1000, i.e. after 1000 failed suffix attempts, which the fuel
mirrors exactly. -/
def uniqueLoop (fsExists : String → Bool) (directory nm ext : String) :
    Nat → Nat → Except String String
  | _, 0 => .error "Too many files with similar names exist"
  | counter, Nat.succ fuel =>
    let new_name := nm ++ "_" ++ toString counter ++ ext
    let new_path := osJoin directory new_name
    if fsExists new_path then uniqueLoop fsExists directory nm ext (counter + 1) fuel
    else .ok new_path

/-- Embeds `get_unique_output_path` (utils/generator.py lines 75-96).
`fsExists` stubs `os.path.exists`.  `.error` is the `ValueError` raised after
1000 failed attempts. -/
def get_unique_output_path (fsExists : String → Bool) (output_path : String) :
    Except String String :=
  if !fsExists output_path then .ok output_path
  else
    let directory := pyDirname output_path
    let base_name := pyBasename output_path
    let pair := pySplitext base_name
    uniqueLoop fsExists directory pair.1 pair.2 1 1000

/-- The `k`-th collision suffix candidate that `get_unique_output_path`
probes for `output_path`. -/
def suffixedPath (output_path : String) (k : Nat) : String :=
  let pair := pySplitext (pyBasename output_path)
  osJoin (pyDirname output_path) (pair.1 ++ "_" ++ toString k ++ pair.2)

/-- EMU per inch, `pptx.util.Inches(1)`. -/
def inchEMU : Nat := 914400

/-- Python `int(x)` for the nonnegative rationals arising in the font-size
heuristic (truncation toward zero = floor on nonnegatives). -/
def ratTrunc (q : ℚ) : Nat :=
  (⌊q⌋).toNat

/-- Estimated characters per line (utils/generator.py line 194):
`int((placeholder_width / Inches(1)) * 12)`.  The source computes this with
Python floats; the model uses exact rational arithmetic. -/
def charsPerLine (placeholder_width : Nat) : Nat :=
  ratTrunc ((placeholder_width : ℚ) / (inchEMU : ℚ) * 12)

/-- Estimated available lines (utils/generator.py line 195):
`int((placeholder_height / Inches(1)) * 2)`. -/
def linesAvailable (placeholder_height : Nat) : Nat :=
  ratTrunc ((placeholder_height : ℚ) / (inchEMU : ℚ) * 2)

/-- Estimated lines needed (utils/generator.py line 201):
`max(1, text_length / chars_per_line)`. -/
def estimatedLines (text_length cpl : Nat) : ℚ :=
  max 1 ((text_length : ℚ) / (cpl : ℚ))

/-- Embeds `calculate_optimal_font_size` (utils/generator.py lines 187-212),
with real-number arithmetic modelled exactly by rationals (`0.8` = `4/5`). -/
def calculate_optimal_font_size (text_length placeholder_width placeholder_height : Nat)
    (min_size max_size : Nat) : Nat :=
  let chars_per_line := charsPerLine placeholder_width
  let lines_available := linesAvailable placeholder_height
  if chars_per_line = 0 ∨ lines_available = 0 then 12
  else
    let estimated_lines := estimatedLines text_length chars_per_line
    if estimated_lines ≤ (lines_available : ℚ) * (4 / 5 : ℚ) then max_size
    else
      let ratio := (lines_available : ℚ) * (4 / 5 : ℚ) / estimated_lines
      let calculated_size := ratTrunc ((max_size : ℚ) * ratio)
      max min_size (min calculated_size max_size)

/-- The font size `fill_text_placeholder` uses for a text placeholder fill
(utils/generator.py lines 250-258): `calculate_optimal_font_size` with
`min_size=8, max_size=14`. -/
def fill_text_font_size (text_length placeholder_width placeholder_height : Nat) : Nat :=
  calculate_optimal_font_size text_length placeholder_width placeholder_height 8 14

/-- True when both suffixes are non-empty and their final characters differ. -/
def headConflict (su1 su2 : String) : Bool :=
  match su1.toList.reverse, su2.toList.reverse with
  | a :: _, b :: _ => a != b
  | _, _ => false

/-! ### Helper lemmas -/

/-- Two boolean prefixes of the same character list start with the same
character. -/
theorem isPrefixOf_head_eq {a b : Char} {l1 l2 l : List Char}
    (h1 : (a :: l1).isPrefixOf l = true) (h2 : (b :: l2).isPrefixOf l = true) :
    a = b := by
  cases l with
  | nil => simp [List.isPrefixOf] at h1
  | cons c t =>
    simp only [List.isPrefixOf, Bool.and_eq_true, beq_iff_eq] at h1 h2
    exact h1.1.trans h2.1.symm

/-- Folding file sections that are all empty leaves the accumulator
unchanged. -/
theorem ingest_fold_empty (files : List FileEntry)
    (h : ∀ f ∈ files, fileSection f = "") :
    ∀ acc, List.foldl (fun acc f => acc ++ fileSection f) acc files = acc := by
  induction files with
  | nil => intro acc; rfl
  | cons f fs ih =>
    intro acc
    simp only [List.foldl]
    rw [h f (by simp), String.append_empty]
    exact ih (fun x hx => h x (by simp [hx])) acc

/-- The fallback query lists are never empty and never longer than 5. -/
theorem fallback_queries_bounds (search_type : String) :
    generate_fallback_queries search_type ≠ [] ∧
    (generate_fallback_queries search_type).length ≤ 5 := by
  unfold generate_fallback_queries
  split_ifs <;> simp

/-- Generated query lists are never empty. -/
theorem generate_search_queries_ne (parse : String → Option Json) (llm : CallResult)
    (company_name company_data search_type : String) :
    generate_search_queries parse llm company_name company_data search_type ≠ [] := by
  have hfb : (generate_fallback_queries search_type).map Json.str ≠ [] := by
    have := (fallback_queries_bounds search_type).1
    simpa using this
  unfold generate_search_queries
  cases llm with
  | raised => exact hfb
  | ok content =>
    cases hp : parse (clean_json_string content) with
    | none => simpa [hp] using hfb
    | some q =>
      cases q <;> simp [hp] <;> try exact (fallback_queries_bounds search_type).1
      case arr xs =>
        by_cases hx : xs.length > 0
        · simp [hx]
          cases xs with
          | nil => simp at hx
          | cons y ys => simp
        · simp [hx]
          exact (fallback_queries_bounds search_type).1

/-- Generated query lists never exceed 5 entries. -/
theorem generate_search_queries_le (parse : String → Option Json) (llm : CallResult)
    (company_name company_data search_type : String) :
    (generate_search_queries parse llm company_name company_data search_type).length ≤ 5 := by
  have hfb : ((generate_fallback_queries search_type).map Json.str).length ≤ 5 := by
    have := (fallback_queries_bounds search_type).2
    simpa using this
  unfold generate_search_queries
  cases llm with
  | raised => exact hfb
  | ok content =>
    cases hp : parse (clean_json_string content) with
    | none => simpa [hp] using hfb
    | some q =>
      cases q <;> simp [hp] <;> try exact (fallback_queries_bounds search_type).2
      case arr xs =>
        by_cases hx : xs.length > 0
        · simp [hx, List.length_take]
        · simp [hx]
          exact (fallback_queries_bounds search_type).2

/-- When every candidate before the `k`-th is taken and the `k`-th is free,
the collision loop returns the `k`-th candidate. -/
theorem uniqueLoop_finds (ex : String → Bool) (dir nm ext : String) :
    ∀ (fuel c k : Nat), c ≤ k → k < c + fuel →
      (∀ j, c ≤ j → j < k → ex (osJoin dir (nm ++ "_" ++ toString j ++ ext)) = true) →
      ex (osJoin dir (nm ++ "_" ++ toString k ++ ext)) = false →
      uniqueLoop ex dir nm ext c fuel = .ok (osJoin dir (nm ++ "_" ++ toString k ++ ext)) := by
  intro fuel
  induction fuel with
  | zero => intro c k hck hlt _ _; omega
  | succ fuel ih =>
    intro c k hck hlt hall hk
    by_cases hc : c = k
    · subst hc
      unfold uniqueLoop
      simp [hk]
    · have h1 : ex (osJoin dir (nm ++ "_" ++ toString c ++ ext)) = true :=
        hall c le_rfl (by omega)
      unfold uniqueLoop
      simp [h1]
      exact ih (c + 1) k (by omega) (by omega) (fun j hj1 hj2 => hall j (by omega) hj2) hk

/-- When every candidate in the fuel window is taken, the collision loop
raises. -/
theorem uniqueLoop_exhausted (ex : String → Bool) (dir nm ext : String) :
    ∀ (fuel c : Nat),
      (∀ j, c ≤ j → j < c + fuel → ex (osJoin dir (nm ++ "_" ++ toString j ++ ext)) = true) →
      uniqueLoop ex dir nm ext c fuel = .error "Too many files with similar names exist" := by
  intro fuel
  induction fuel with
  | zero => intro c _; rfl
  | succ fuel ih =>
    intro c hall
    have h1 : ex (osJoin dir (nm ++ "_" ++ toString c ++ ext)) = true :=
      hall c le_rfl (by omega)
    unfold uniqueLoop
    simp [h1]
    exact ih (c + 1) (fun j hj1 hj2 => hall j (by omega) (by omega))

/-! ### Claim theorems -/

/-- C1: the Extractor's two failure modes are asymmetric.  A reply whose
cleaned text fails to parse as JSON yields the non-null placeholder record
(codename sentinel "Project Error"); a raised model invocation yields `none`.
Since the two right-hand sides are a `some` and `none` respectively, the
Extractor never returns `none` on a parse failure and never returns the
placeholder on a call failure. -/
theorem claim1_extractor_failure_asymmetry (parse : String → Option Json)
    (content : String) (h : parse (clean_json_string content) = none) :
    analyze_data parse (.ok content) = some errorPlaceholder ∧
    analyze_data parse .raised = none ∧
    errorPlaceholder.getKey "company_codename" = some (.str "Project Error") := by
  refine ⟨?_, rfl, rfl⟩
  simp only [analyze_data, h]

/-- Witness for C1 at a concrete stub: a parser that always fails and an
arbitrary reply text. -/
theorem claim1_witness :
    analyze_data (fun _ => none) (.ok "the model ignored the format") = some errorPlaceholder ∧
    analyze_data (fun _ => none) .raised = none ∧
    errorPlaceholder.getKey "company_codename" = some (.str "Project Error") :=
  claim1_extractor_failure_asymmetry (fun _ => none) "the model ignored the format" rfl

/-- C2 counterexample: on a JSON-parse failure the returned placeholder's
`business_overview` is the one-element list `["AI could not process data."]`,
not an empty list, so the claim that all list fields are empty is false. -/
theorem claim2_counterexample :
    analyze_data (fun _ => none) (.ok "still not json") = some errorPlaceholder ∧
    errorPlaceholder.getKey "business_overview"
      = some (.arr [.str "AI could not process data."]) ∧
    Json.arr [.str "AI could not process data."] ≠ Json.arr [] := by
  refine ⟨rfl, rfl, ?_⟩
  intro h
  injection h with h'
  simp at h'

/-- C2 amended: on a JSON-parse failure the placeholder record has
`product_portfolio`, `applications` and `investment_highlights` empty,
`financials` an empty mapping, the fixed error sentinel as codename, and
`business_overview` equal to the single explanatory entry
"AI could not process data.". -/
theorem claim2_amended_placeholder_shape (parse : String → Option Json)
    (content : String) (h : parse (clean_json_string content) = none) :
    analyze_data parse (.ok content) = some errorPlaceholder ∧
    errorPlaceholder.getKey "product_portfolio" = some (.arr []) ∧
    errorPlaceholder.getKey "applications" = some (.arr []) ∧
    errorPlaceholder.getKey "investment_highlights" = some (.arr []) ∧
    errorPlaceholder.getKey "financials" = some (.obj []) ∧
    errorPlaceholder.getKey "company_codename" = some (.str "Project Error") ∧
    errorPlaceholder.getKey "business_overview"
      = some (.arr [.str "AI could not process data."]) := by
  refine ⟨?_, rfl, rfl, rfl, rfl, rfl, rfl⟩
  simp only [analyze_data, h]

/-- Witness for the amended C2 at the always-failing parser stub. -/
theorem claim2_witness :
    analyze_data (fun _ => none) (.ok "broken reply") = some errorPlaceholder ∧
    errorPlaceholder.getKey "product_portfolio" = some (.arr []) ∧
    errorPlaceholder.getKey "applications" = some (.arr []) ∧
    errorPlaceholder.getKey "investment_highlights" = some (.arr []) ∧
    errorPlaceholder.getKey "financials" = some (.obj []) ∧
    errorPlaceholder.getKey "company_codename" = some (.str "Project Error") ∧
    errorPlaceholder.getKey "business_overview"
      = some (.arr [.str "AI could not process data."]) :=
  claim2_amended_placeholder_shape (fun _ => none) "broken reply" rfl

/-- C9 counterexample: a folder containing only a dotfile has a non-empty
listing, so ingestion skips the warning branch, skips the dotfile, and
returns the empty string — not the designated "no files" signal. -/
theorem claim9_counterexample :
    ingest_company_data (some [⟨".DS_Store", .textData "binary junk"⟩]) "data/input/X" = "" ∧
    ("" : String) ≠ "Warning: No files found in this folder." := by
  refine ⟨rfl, ?_⟩
  intro h
  have h' := congrArg String.length h
  simp [String.length] at h'

/-- C9 amended: the designated "no files" signal is returned exactly when the
directory listing itself is empty; a non-empty listing consisting only of
dotfiles yields the empty string instead.  In both cases ingestion returns a
value rather than raising (the embedding is a total function). -/
theorem claim9_amended_no_files_signal (folder_path : String) :
    ingest_company_data (some []) folder_path = "Warning: No files found in this folder." ∧
    (∀ files : List FileEntry, files ≠ [] →
      (∀ f ∈ files, startsWithDot f.name = true) →
      ingest_company_data (some files) folder_path = "") := by
  constructor
  · rfl
  · intro files hne hdots
    have hnotempty : files.isEmpty = false := by
      cases files with
      | nil => exact absurd rfl hne
      | cons f fs => rfl
    simp only [ingest_company_data, hnotempty, Bool.false_eq_true, if_false]
    exact ingest_fold_empty files
      (fun f hf => by unfold fileSection; rw [hdots f hf]; simp) ""

/-- Witness for the amended C9: the empty listing and a dotfile-only
listing. -/
theorem claim9_witness :
    ingest_company_data (some []) "data/input/Y" = "Warning: No files found in this folder." ∧
    ingest_company_data (some [⟨".hidden", .textData "zzz"⟩]) "data/input/Y" = "" := by
  constructor
  · exact (claim9_amended_no_files_signal "data/input/Y").1
  · exact (claim9_amended_no_files_signal "data/input/Y").2
      [⟨".hidden", .textData "zzz"⟩] (by simp) (by decide)

/-- A string ending in one suffix cannot end in another whose final character
differs. -/
theorem pyEndsWith_head_ne (s su1 su2 : String) (h1 : pyEndsWith s su1 = true)
    (hne : headConflict su1 su2 = true) :
    pyEndsWith s su2 = false := by
  unfold headConflict at hne
  cases e1 : su1.toList.reverse with
  | nil => simp only [e1] at hne; exact absurd hne (by simp)
  | cons a l1 =>
    cases e2 : su2.toList.reverse with
    | nil => simp only [e1, e2] at hne; exact absurd hne (by simp)
    | cons b l2 =>
      simp only [e1, e2, bne_iff_ne, ne_eq] at hne
      cases h2 : pyEndsWith s su2 with
      | false => rfl
      | true =>
        unfold pyEndsWith List.isSuffixOf at h1 h2
        rw [e1] at h1
        rw [e2] at h2
        exact absurd (isPrefixOf_head_eq h1 h2) hne

/-- C6 counterexample: for a PDF the per-file header is
`--- FILE: <name> (PDF Content) ---`, so the corpus for a one-PDF folder does
not contain the claimed uniform header line `--- FILE: <name> ---`. -/
theorem claim6_counterexample :
    ingest_company_data (some [⟨"brochure.pdf", .pdfData [some "hello"]⟩]) "data/input/Z"
      = "\n\n--- FILE: brochure.pdf (PDF Content) ---\nhello\n" ∧
    strContains
      (ingest_company_data (some [⟨"brochure.pdf", .pdfData [some "hello"]⟩]) "data/input/Z")
      "--- FILE: brochure.pdf ---" = false := by
  exact ⟨rfl, by decide⟩

/-- C6 amended: each per-file section starts with the header
`--- FILE: <name> ---` for text/markdown files (content following verbatim),
`--- FILE: <name> (PDF Content) ---` for PDFs, and
`--- FILE: <name> | SHEET: <sheet> ---` once per sheet for spreadsheets. -/
theorem claim6_amended_file_headers (folder_path name : String)
    (hdot : startsWithDot name = false) :
    (∀ content,
      (pyEndsWith (pyLower name) ".txt" = true ∨ pyEndsWith (pyLower name) ".md" = true) →
      ingest_company_data (some [⟨name, .textData content⟩]) folder_path
        = "\n\n--- FILE: " ++ name ++ " ---\n" ++ content) ∧
    (∀ pages,
      pyEndsWith (pyLower name) ".pdf" = true →
      ingest_company_data (some [⟨name, .pdfData pages⟩]) folder_path
        = "\n\n--- FILE: " ++ name ++ " (PDF Content) ---\n" ++ pdfText pages) ∧
    (∀ sheets : List (String × String),
      (pyEndsWith (pyLower name) ".xlsx" = true ∨ pyEndsWith (pyLower name) ".xls" = true) →
      ingest_company_data (some [⟨name, .sheetData sheets⟩]) folder_path
        = sheets.foldl
            (fun acc st =>
              acc ++ "\n\n--- FILE: " ++ name ++ " | SHEET: " ++ st.1 ++ " ---\n" ++ st.2)
            "") := by
  refine ⟨?_, ?_, ?_⟩
  · intro content hext
    have step : ingest_company_data (some [⟨name, .textData content⟩]) folder_path
        = "" ++ fileSection ⟨name, .textData content⟩ := rfl
    rw [step, String.empty_append]
    unfold fileSection
    simp only [hdot, Bool.false_eq_true, if_false]
    rcases hext with h | h <;> simp [h]
  · intro pages hpdf
    have htxt := pyEndsWith_head_ne (pyLower name) ".pdf" ".txt" hpdf (by decide)
    have hmd := pyEndsWith_head_ne (pyLower name) ".pdf" ".md" hpdf (by decide)
    have step : ingest_company_data (some [⟨name, .pdfData pages⟩]) folder_path
        = "" ++ fileSection ⟨name, .pdfData pages⟩ := rfl
    rw [step, String.empty_append]
    unfold fileSection
    simp [hdot, htxt, hmd, hpdf]
  · intro sheets hxl
    have hpdf : pyEndsWith (pyLower name) ".pdf" = false := by
      rcases hxl with hx | hx
      · exact pyEndsWith_head_ne (pyLower name) ".xlsx" ".pdf" hx (by decide)
      · exact pyEndsWith_head_ne (pyLower name) ".xls" ".pdf" hx (by decide)
    have htxt : pyEndsWith (pyLower name) ".txt" = false := by
      rcases hxl with hx | hx
      · exact pyEndsWith_head_ne (pyLower name) ".xlsx" ".txt" hx (by decide)
      · exact pyEndsWith_head_ne (pyLower name) ".xls" ".txt" hx (by decide)
    have hmd : pyEndsWith (pyLower name) ".md" = false := by
      rcases hxl with hx | hx
      · exact pyEndsWith_head_ne (pyLower name) ".xlsx" ".md" hx (by decide)
      · exact pyEndsWith_head_ne (pyLower name) ".xls" ".md" hx (by decide)
    have step : ingest_company_data (some [⟨name, .sheetData sheets⟩]) folder_path
        = "" ++ fileSection ⟨name, .sheetData sheets⟩ := rfl
    rw [step, String.empty_append]
    unfold fileSection
    rcases hxl with hx | hx <;> simp [hdot, htxt, hmd, hpdf, hx]

/-- Witness for the amended C6 at one concrete file per extension family. -/
theorem claim6_witness :
    ingest_company_data (some [⟨"notes.md", .textData "plain text"⟩]) "d"
      = "\n\n--- FILE: notes.md ---\nplain text" ∧
    ingest_company_data (some [⟨"deck.pdf", .pdfData [some "p1", none, some "p2"]⟩]) "d"
      = "\n\n--- FILE: deck.pdf (PDF Content) ---\np1\np2\n" ∧
    ingest_company_data (some [⟨"fin.xlsx", .sheetData [("S1", "tbl")]⟩]) "d"
      = "\n\n--- FILE: fin.xlsx | SHEET: S1 ---\ntbl" := by
  refine ⟨?_, ?_, ?_⟩
  · rw [(claim6_amended_file_headers "d" "notes.md" (by decide)).1
      "plain text" (Or.inr (by decide))]
    decide
  · rw [(claim6_amended_file_headers "d" "deck.pdf" (by decide)).2.1
      [some "p1", none, some "p2"] (by decide)]
    decide
  · rw [(claim6_amended_file_headers "d" "fin.xlsx" (by decide)).2.2
      [("S1", "tbl")] (Or.inl (by decide))]
    decide

/-- A string of length at least 50 has a non-empty character list. -/
theorem corpus_not_isEmpty (s : String) (h : ¬ s.length < 50) : s.toList.isEmpty = false := by
  cases he : s.toList.isEmpty
  · rfl
  · exfalso
    apply h
    have hlist : s.data = [] := List.isEmpty_iff.mp he
    have hz : s.length = 0 := by
      show s.data.length = 0
      rw [hlist]
      rfl
    omega

/-- A corpus shorter than 50 characters makes the pipeline stop at once:
no stage runs and the outcome is the "no text" abort. -/
theorem run_pipeline_short_corpus (base_dir name : String) (fs : Option (List FileEntry))
    (agent : Option Json) (web : Except Unit Json) (gen : Except Unit Unit)
    (h : (ingest_company_data fs
        (osJoin (osJoin (osJoin base_dir "data") "input") name)).length < 50) :
    run_pipeline base_dir name fs agent web gen = ⟨false, false, false, none, .abortedNoText⟩ := by
  unfold run_pipeline
  simp [h]

/-- The pipeline ends in the "no text" abort exactly when the ingested corpus
is shorter than 50 characters. -/
theorem run_pipeline_abortNoText_iff (base_dir name : String) (fs : Option (List FileEntry))
    (agent : Option Json) (web : Except Unit Json) (gen : Except Unit Unit) :
    (run_pipeline base_dir name fs agent web gen).outcome = .abortedNoText ↔
    (ingest_company_data fs
        (osJoin (osJoin (osJoin base_dir "data") "input") name)).length < 50 := by
  by_cases h : (ingest_company_data fs
      (osJoin (osJoin (osJoin base_dir "data") "input") name)).length < 50
  · rw [run_pipeline_short_corpus base_dir name fs agent web gen h]
    simp [h]
  · have hne := corpus_not_isEmpty _ h
    unfold run_pipeline
    simp only [hne, h, decide_eq_true_eq, Bool.false_or, decide_eq_false_iff_not,
      if_neg, not_false_iff]
    cases agent with
    | none => simp [h]
    | some sd =>
      cases ht : jsonTruthy sd with
      | true =>
        simp only [ht, Bool.not_true, Bool.false_eq_true, if_false]
        cases gen <;> simp [h]
      | false =>
        simp [ht, h]

/-- C3 counterexample: a nonexistent input folder whose full path is 24
characters long produces the error string
"Error: Folder not found at /a/data/input/CompanyXYZ" of length 51, which
passes the 50-character check, so the pipeline does not treat it as an empty
corpus — the Extractor is invoked on the error string. -/
theorem claim3_counterexample :
    ingest_company_data none "/a/data/input/CompanyXYZ"
      = "Error: Folder not found at /a/data/input/CompanyXYZ" ∧
    ¬ (ingest_company_data none "/a/data/input/CompanyXYZ").length < 50 ∧
    (run_pipeline "/a" "CompanyXYZ" none (some errorPlaceholder)
      (.ok emptyWebData) (.ok ())).extractorCalled = true := by
  refine ⟨rfl, by decide, by decide⟩

/-- C3 amended: an ingestion result shorter than 50 characters aborts the
pipeline before any later stage runs; a nonexistent input directory yields
the descriptive error string rather than raising; but that string is consumed
as an empty corpus only when the full input path is shorter than 23
characters — for longer nonexistent paths the 50-character check passes and
the pipeline proceeds into the Extractor on the error string. -/
theorem claim3_amended_soft_signal (base_dir name input_dir : String)
    (fs : Option (List FileEntry)) (agent : Option Json) (web : Except Unit Json)
    (gen : Except Unit Unit)
    (hdir : input_dir = osJoin (osJoin (osJoin base_dir "data") "input") name) :
    ((ingest_company_data fs input_dir).length < 50 →
      run_pipeline base_dir name fs agent web gen
        = ⟨false, false, false, none, .abortedNoText⟩) ∧
    ingest_company_data none input_dir = "Error: Folder not found at " ++ input_dir ∧
    ((run_pipeline base_dir name none agent web gen).outcome = .abortedNoText ↔
      input_dir.length < 23) := by
  subst hdir
  refine ⟨fun h => run_pipeline_short_corpus base_dir name fs agent web gen h, rfl, ?_⟩
  rw [run_pipeline_abortNoText_iff]
  have hlen : (ingest_company_data none
      (osJoin (osJoin (osJoin base_dir "data") "input") name)).length
      = 27 + (osJoin (osJoin (osJoin base_dir "data") "input") name).length := by
    show (("Error: Folder not found at " : String)
      ++ osJoin (osJoin (osJoin base_dir "data") "input") name).length = _
    rw [String.length_append,
      show ("Error: Folder not found at " : String).length = 27 from by decide]
  rw [hlen]
  omega

/-- Witness for the amended C3: a short path that does get consumed as an
empty corpus. -/
theorem claim3_witness :
    run_pipeline "" "C" none (some errorPlaceholder) (.ok emptyWebData) (.ok ())
      = ⟨false, false, false, none, .abortedNoText⟩ ∧
    ingest_company_data none "data/input/C" = "Error: Folder not found at data/input/C" ∧
    ((run_pipeline "" "C" none (some errorPlaceholder)
        (.ok emptyWebData) (.ok ())).outcome = .abortedNoText ↔ ("data/input/C").length < 23) := by
  have h := claim3_amended_soft_signal "" "C" "data/input/C" none (some errorPlaceholder)
    (.ok emptyWebData) (.ok ()) (by decide)
  exact ⟨h.1 (by decide), h.2.1, h.2.2⟩

/-- C5: when web enrichment raises, the orchestrator substitutes the all-empty
web-data structure (empty images, certifications and citations lists and an
empty business-info mapping) and still runs the generation stage. -/
theorem claim5_web_failure_caught (base_dir name : String) (fs : Option (List FileEntry))
    (sd : Json) (gen : Except Unit Unit)
    (h1 : jsonTruthy sd = true)
    (h2 : ¬ (ingest_company_data fs
        (osJoin (osJoin (osJoin base_dir "data") "input") name)).length < 50) :
    (run_pipeline base_dir name fs (some sd) (.error ()) gen).webDataUsed
      = some emptyWebData ∧
    (run_pipeline base_dir name fs (some sd) (.error ()) gen).generatorCalled = true ∧
    emptyWebData.getKey "images" = some (.arr []) ∧
    emptyWebData.getKey "certifications" = some (.arr []) ∧
    emptyWebData.getKey "business_info" = some (.obj []) ∧
    emptyWebData.getKey "citations" = some (.arr []) := by
  have hne := corpus_not_isEmpty _ h2
  refine ⟨?_, ?_, rfl, rfl, rfl, rfl⟩ <;>
  · unfold run_pipeline
    rw [if_neg (by rw [hne]; simp [h2])]
    simp only [h1, Bool.not_true, Bool.false_eq_true, if_false]
    cases gen <;> rfl

/-- Witness for C5 at a concrete run: a 62-character text file, a truthy
structured record, and a raising web stage. -/
theorem claim5_witness :
    (run_pipeline "/r" "Comp"
        (some [⟨"a.txt", .textData "this overview text is definitely longer than fifty characters"⟩])
        (some errorPlaceholder) (.error ()) (.ok ())).webDataUsed = some emptyWebData ∧
    (run_pipeline "/r" "Comp"
        (some [⟨"a.txt", .textData "this overview text is definitely longer than fifty characters"⟩])
        (some errorPlaceholder) (.error ()) (.ok ())).generatorCalled = true := by
  have h := claim5_web_failure_caught "/r" "Comp"
    (some [⟨"a.txt", .textData "this overview text is definitely longer than fifty characters"⟩])
    errorPlaceholder (.ok ()) (by decide) (by decide)
  exact ⟨h.1, h.2.1⟩

/-- C10: query generation always returns a non-empty list of at most 5
entries; a well-formed non-empty JSON-array reply yields its first 5
elements, every failure branch (raised call, parse error, empty array, and a
reply parsing to any non-array JSON value — the `isinstance(queries, list)`
failure) yields the fixed per-category fallback, and unknown categories fall
back to `["general search"]`. -/
theorem claim10_query_generation (parse : String → Option Json) (llm : CallResult)
    (company_name company_data search_type : String) :
    (generate_search_queries parse llm company_name company_data search_type ≠ [] ∧
      (generate_search_queries parse llm company_name company_data search_type).length ≤ 5) ∧
    (llm = .raised →
      generate_search_queries parse llm company_name company_data search_type
        = (generate_fallback_queries search_type).map Json.str) ∧
    (∀ content, llm = .ok content → parse (clean_json_string content) = none →
      generate_search_queries parse llm company_name company_data search_type
        = (generate_fallback_queries search_type).map Json.str) ∧
    (∀ content xs, llm = .ok content → parse (clean_json_string content) = some (.arr xs) →
      xs ≠ [] →
      generate_search_queries parse llm company_name company_data search_type = xs.take 5) ∧
    (∀ content, llm = .ok content → parse (clean_json_string content) = some (.arr []) →
      generate_search_queries parse llm company_name company_data search_type
        = (generate_fallback_queries search_type).map Json.str) ∧
    (∀ content j, llm = .ok content → parse (clean_json_string content) = some j →
      (∀ xs : List Json, j ≠ .arr xs) →
      generate_search_queries parse llm company_name company_data search_type
        = (generate_fallback_queries search_type).map Json.str) ∧
    (search_type ≠ "images" → search_type ≠ "certifications" →
      search_type ≠ "business_info" → search_type ≠ "partners" →
      generate_fallback_queries search_type = ["general search"]) := by
  refine ⟨⟨generate_search_queries_ne parse llm company_name company_data search_type,
      generate_search_queries_le parse llm company_name company_data search_type⟩,
    ?_, ?_, ?_, ?_, ?_, ?_⟩
  · intro hr
    subst hr
    rfl
  · intro content hok hp
    subst hok
    simp [generate_search_queries, hp]
  · intro content xs hok hp hne
    subst hok
    have hpos : xs.length > 0 := List.length_pos.mpr hne
    simp [generate_search_queries, hp, hpos]
  · intro content hok hp
    subst hok
    simp [generate_search_queries, hp]
  · intro content j hok hp hnotarr
    subst hok
    cases j with
    | arr xs => exact absurd rfl (hnotarr xs)
    | null => simp [generate_search_queries, hp]
    | bool b => simp [generate_search_queries, hp]
    | num n => simp [generate_search_queries, hp]
    | str s => simp [generate_search_queries, hp]
    | obj kvs => simp [generate_search_queries, hp]
  · intro h1 h2 h3 h4
    unfold generate_fallback_queries
    simp [h1, h2, h3, h4]

/-- Witness for C10: an unknown category with a raised model call, a
six-element array reply truncated to five, and a non-array (object) reply
falling back. -/
theorem claim10_witness :
    generate_search_queries (fun _ => none) .raised "c" "d" "weird category"
      = [Json.str "general search"] ∧
    generate_search_queries
      (fun _ => some (.arr [.str "q1", .str "q2", .str "q3", .str "q4", .str "q5", .str "q6"]))
      (.ok "reply") "c" "d" "images"
      = [.str "q1", .str "q2", .str "q3", .str "q4", .str "q5"] ∧
    generate_search_queries (fun _ => some (.obj [("not", .str "a list")]))
      (.ok "reply") "c" "d" "partners"
      = [Json.str "business partnerships", Json.str "industry collaborations"] := by
  refine ⟨?_, ?_, ?_⟩
  · have h := claim10_query_generation (fun _ => none) .raised "c" "d" "weird category"
    have e1 := h.2.1 rfl
    have e2 := h.2.2.2.2.2.2 (by decide) (by decide) (by decide) (by decide)
    rw [e1, e2]
    rfl
  · have h := claim10_query_generation
      (fun _ => some (.arr [.str "q1", .str "q2", .str "q3", .str "q4", .str "q5", .str "q6"]))
      (.ok "reply") "c" "d" "images"
    have e := h.2.2.2.1 "reply"
      [.str "q1", .str "q2", .str "q3", .str "q4", .str "q5", .str "q6"]
      rfl rfl (List.cons_ne_nil _ _)
    rw [e]
    rfl
  · have h := claim10_query_generation (fun _ => some (.obj [("not", .str "a list")]))
      (.ok "reply") "c" "d" "partners"
    have e := h.2.2.2.2.2.1 "reply" (.obj [("not", .str "a list")]) rfl rfl
      (fun xs hx => Json.noConfusion hx)
    rw [e]
    rfl

/-- C4: every case-insensitive catalog match in the raw data is recorded as a
verified certification sourced from `company_data`, and the web text-search
fallback is attempted — exactly one call, using only the first generated
query — precisely when the local scan found zero matches. -/
theorem claim4_certification_scan (parse : String → Option Json) (llm : CallResult)
    (tavily : Json → List TavilyResult) (company_name company_data : String) :
    (∀ cert ∈ common_certs, strContains (pyLower company_data) (pyLower cert) = true →
      (⟨cert, cert ++ " certification standard", true, "company_data"⟩ : Cert)
        ∈ (search_certifications parse llm tavily company_name company_data).1) ∧
    ((common_certs.filter
        (fun c => strContains (pyLower company_data) (pyLower c))).length = 0 →
      ∃ q rest,
        generate_search_queries parse llm company_name company_data "certifications"
          = q :: rest ∧
        (search_certifications parse llm tavily company_name company_data).2.2 = [q]) ∧
    ((common_certs.filter
        (fun c => strContains (pyLower company_data) (pyLower c))).length ≠ 0 →
      (search_certifications parse llm tavily company_name company_data).2.2 = []) := by
  by_cases hz : (common_certs.filter
      (fun c => strContains (pyLower company_data) (pyLower c))).length = 0
  · obtain ⟨q, rest, hq⟩ := List.exists_cons_of_ne_nil
      (generate_search_queries_ne parse llm company_name company_data "certifications")
    have hres : search_certifications parse llm tavily company_name company_data
        = (let found0 := common_certs.filter
            (fun c => strContains (pyLower company_data) (pyLower c))
          let localCerts : List Cert := found0.map (fun cert =>
            ⟨cert, cert ++ " certification standard", true, "company_data"⟩)
          let localCits : List CertCitation := found0.map (fun cert =>
            ⟨"certification", cert, "company_data",
              "Certification mentioned in provided company data"⟩)
          let webpart := webCertFold (tavily q) found0
          (localCerts ++ webpart.2.1, localCits ++ webpart.2.2, [q])) := by
      unfold search_certifications
      rw [if_pos hz, hq]
    refine ⟨?_, fun _ => ⟨q, rest, hq, ?_⟩, fun hnz => absurd hz hnz⟩
    · intro cert hmem hmatch
      rw [hres]
      simp only []
      apply List.mem_append_left
      exact List.mem_map.mpr ⟨cert, List.mem_filter.mpr ⟨hmem, hmatch⟩, rfl⟩
    · rw [hres]
  · have hres : search_certifications parse llm tavily company_name company_data
        = (let found0 := common_certs.filter
            (fun c => strContains (pyLower company_data) (pyLower c))
          let localCerts : List Cert := found0.map (fun cert =>
            ⟨cert, cert ++ " certification standard", true, "company_data"⟩)
          let localCits : List CertCitation := found0.map (fun cert =>
            ⟨"certification", cert, "company_data",
              "Certification mentioned in provided company data"⟩)
          (localCerts, localCits, [])) := by
      unfold search_certifications
      rw [if_neg hz]
    refine ⟨?_, fun hzero => absurd hzero hz, fun _ => ?_⟩
    · intro cert hmem hmatch
      rw [hres]
      simp only []
      exact List.mem_map.mpr ⟨cert, List.mem_filter.mpr ⟨hmem, hmatch⟩, rfl⟩
    · rw [hres]

/-- Witness for C4: a raw text containing "iso 9001" in lower case records
the verified entry and suppresses the web search; a raw text with no catalog
match issues exactly one text-search call with the first (fallback) query. -/
theorem claim4_witness :
    (⟨"ISO 9001", "ISO 9001 certification standard", true, "company_data"⟩ : Cert)
      ∈ (search_certifications (fun _ => none) .raised (fun _ => []) "c"
          "we are iso 9001 and haccp certified").1 ∧
    (search_certifications (fun _ => none) .raised (fun _ => []) "c"
        "we are iso 9001 and haccp certified").2.2 = [] ∧
    (search_certifications (fun _ => none) .raised (fun _ => []) "c"
        "nothing matching at all").2.2 = [Json.str "ISO 9001 certification"] := by
  have h := claim4_certification_scan (fun _ => none) .raised (fun _ => []) "c"
    "we are iso 9001 and haccp certified"
  refine ⟨h.1 "ISO 9001" (by decide) (by decide), h.2.2 (by decide), ?_⟩
  have h2 := claim4_certification_scan (fun _ => none) .raised (fun _ => []) "c"
    "nothing matching at all"
  obtain ⟨q, rest, hq, hcalls⟩ := h2.2.1 (by decide)
  have hq2 : Json.str "ISO 9001 certification" :: [Json.str "industry certifications"]
      = q :: rest := by
    rw [← hq]
    rfl
  injection hq2 with hqh hqt
  rw [hcalls, ← hqh]

/-- C7: when the target exists, `get_unique_output_path` returns the first
suffixed candidate `_1`, `_2`, … that does not exist, and raises after 1000
failed suffix attempts; when the target does not exist it is returned
unchanged. -/
theorem claim7_unique_output_path (ex : String → Bool) (output_path : String) :
    (ex output_path = false → get_unique_output_path ex output_path = .ok output_path) ∧
    (∀ k, 1 ≤ k → k ≤ 1000 → ex output_path = true →
      (∀ j, 1 ≤ j → j < k → ex (suffixedPath output_path j) = true) →
      ex (suffixedPath output_path k) = false →
      get_unique_output_path ex output_path = .ok (suffixedPath output_path k)) ∧
    (ex output_path = true →
      (∀ j, 1 ≤ j → j ≤ 1000 → ex (suffixedPath output_path j) = true) →
      get_unique_output_path ex output_path
        = .error "Too many files with similar names exist") := by
  refine ⟨?_, ?_, ?_⟩
  · intro h
    unfold get_unique_output_path
    simp [h]
  · intro k h1 h1000 hex hall hk
    unfold get_unique_output_path
    rw [if_neg (by simp [hex])]
    exact uniqueLoop_finds ex (pyDirname output_path)
      (pySplitext (pyBasename output_path)).1 (pySplitext (pyBasename output_path)).2
      1000 1 k h1 (by omega) (fun j hj1 hj2 => hall j hj1 hj2) hk
  · intro hex hall
    unfold get_unique_output_path
    rw [if_neg (by simp [hex])]
    exact uniqueLoop_exhausted ex (pyDirname output_path)
      (pySplitext (pyBasename output_path)).1 (pySplitext (pyBasename output_path)).2
      1000 1 (fun j hj1 hj2 => hall j hj1 (by omega))

/-- Witness for C7: with `f.pptx` and `f_1.pptx` taken the third save gets
`_2`; with everything taken the call raises. -/
theorem claim7_witness :
    get_unique_output_path (fun q => q == "d/f.pptx" || q == "d/f_1.pptx") "d/f.pptx"
      = .ok "d/f_2.pptx" ∧
    get_unique_output_path (fun _ => true) "d/f.pptx"
      = .error "Too many files with similar names exist" := by
  constructor
  · have h := (claim7_unique_output_path
        (fun q => q == "d/f.pptx" || q == "d/f_1.pptx") "d/f.pptx").2.1
      2 (by decide) (by decide) (by decide)
      (fun j hj1 hj2 => by
        have hj : j = 1 := by omega
        subst hj
        decide)
      (by decide)
    rw [h]
    rfl
  · exact (claim7_unique_output_path (fun _ => true) "d/f.pptx").2.2 rfl
      (fun j hj1 hj2 => rfl)

/-- C8: the font size used for a text placeholder fill is always between 8
and 14 points; with non-degenerate width/height estimates it is exactly 14
when the estimated lines fit within 80% of the available lines, and otherwise
the proportionally shrunk size floored at 8 and capped at 14. -/
theorem claim8_font_size (text_length w h : Nat) :
    (8 ≤ fill_text_font_size text_length w h ∧ fill_text_font_size text_length w h ≤ 14) ∧
    (charsPerLine w ≠ 0 → linesAvailable h ≠ 0 →
      (estimatedLines text_length (charsPerLine w) ≤ (linesAvailable h : ℚ) * (4 / 5 : ℚ) →
        fill_text_font_size text_length w h = 14) ∧
      (¬ estimatedLines text_length (charsPerLine w) ≤ (linesAvailable h : ℚ) * (4 / 5 : ℚ) →
        fill_text_font_size text_length w h
          = max 8 (min (ratTrunc (((14 : Nat) : ℚ) * ((linesAvailable h : ℚ) * (4 / 5 : ℚ)
              / estimatedLines text_length (charsPerLine w)))) 14))) := by
  constructor
  · unfold fill_text_font_size calculate_optimal_font_size
    dsimp only
    split_ifs with hc hle
    · exact ⟨by norm_num, by norm_num⟩
    · exact ⟨by norm_num, le_refl 14⟩
    · exact ⟨le_max_left 8 _, max_le (by norm_num) (min_le_right _ 14)⟩
  · intro hcw hla
    constructor
    · intro hle
      unfold fill_text_font_size calculate_optimal_font_size
      dsimp only
      rw [if_neg (by tauto), if_pos hle]
    · intro hgt
      unfold fill_text_font_size calculate_optimal_font_size
      dsimp only
      rw [if_neg (by tauto), if_neg hgt]

/-- The 2-inch placeholder width estimate evaluates to 24 characters per
line. -/
theorem charsPerLine_two_inch : charsPerLine 1828800 = 24 := by
  unfold charsPerLine ratTrunc inchEMU
  rw [show ((1828800 : Nat) : ℚ) / ((914400 : Nat) : ℚ) * 12 = 24 by push_cast; norm_num]
  rw [Int.floor_ofNat]
  rfl

/-- The 2-inch placeholder height estimate evaluates to 4 available lines. -/
theorem linesAvailable_two_inch : linesAvailable 1828800 = 4 := by
  unfold linesAvailable ratTrunc inchEMU
  rw [show ((1828800 : Nat) : ℚ) / ((914400 : Nat) : ℚ) * 2 = 4 by push_cast; norm_num]
  rw [show ⌊(4 : ℚ)⌋ = 4 by rw [Int.floor_eq_iff] <;> norm_num]
  rfl

/-- Witness for C8 on a 2-inch by 2-inch placeholder: short text gets the
maximum 14pt, long text bottoms out at the 8pt floor, and the degenerate
dimensions stay within bounds. -/
theorem claim8_witness :
    fill_text_font_size 10 1828800 1828800 = 14 ∧
    fill_text_font_size 500 1828800 1828800 = 8 ∧
    8 ≤ fill_text_font_size 100 0 0 ∧ fill_text_font_size 100 0 0 ≤ 14 := by
  have hc := charsPerLine_two_inch
  have hl := linesAvailable_two_inch
  have h1 := claim8_font_size 10 1828800 1828800
  have h2 := claim8_font_size 500 1828800 1828800
  have h3 := claim8_font_size 100 0 0
  refine ⟨?_, ?_, h3.1.1, h3.1.2⟩
  · refine (h1.2 (by rw [hc]; norm_num) (by rw [hl]; norm_num)).1 ?_
    rw [hc, hl]
    unfold estimatedLines
    apply max_le <;> push_cast <;> norm_num
  · have hgt : ¬ estimatedLines 500 (charsPerLine 1828800)
        ≤ ((linesAvailable 1828800 : Nat) : ℚ) * (4 / 5 : ℚ) := by
      rw [hc, hl, not_le]
      apply lt_of_lt_of_le _ (le_max_right 1 _)
      push_cast
      norm_num
    have e := (h2.2 (by rw [hc]; norm_num) (by rw [hl]; norm_num)).2 hgt
    rw [e, hc, hl]
    have hest : estimatedLines 500 24 = 125 / 6 := by
      unfold estimatedLines
      rw [max_eq_right (by push_cast; norm_num)]
      push_cast
      norm_num
    rw [hest]
    rw [show ((14 : Nat) : ℚ) * (((4 : Nat) : ℚ) * (4 / 5 : ℚ) / (125 / 6 : ℚ))
        = 1344 / 625 by push_cast; norm_num]
    rw [show ratTrunc ((1344 : ℚ) / 625) = 2 by
      unfold ratTrunc
      rw [show ⌊(1344 : ℚ) / 625⌋ = 2 by rw [Int.floor_eq_iff] <;> norm_num]
      rfl]
    rfl
